import Mathlib

/-
Shallow embedding of src/factors/models.py (class LifeTable): mortality
calculus, per-product cash-flow generators, the single-slot undefined-partner
lookup cache, present-value discounting and the factor pipeline.

Conventions of the embedding:
* Python floats are modelled by ℚ.  Division by zero yields 0 in ℚ (Python
  would raise ZeroDivisionError); no theorem below depends on that corner.
* pandas Series of contiguous integer ages are modelled by `List ℚ`, the list
  position being the age (the spec's data-model invariant: ages are contiguous
  integers starting at the youngest tabulated age, here 0).
* Failures (KeyError on a dict or index lookup, Python assert statements,
  attribute access on None) are modelled by `Except Err`.
* `print` output is collected in `List String` where the claims need it.
* The constants of the missing settings module (MAXAGE, LOWAGE, UPAGE,
  INSURANCE_IDS) are carried as fields of the `LifeTable` structure; MALE and
  FEMALE are the strings given in the source docstrings.
* `x**0.5` on floats has no ℚ counterpart; functions that discount at
  mid-year timing take an explicit parameter `sqrtQ : ℚ → ℚ` standing for the
  float square root.  All theorems hold for every choice of `sqrtQ`.
* Python `round` uses banker's rounding at exact ties; `roundTo` rounds
  half-up.  No claim below depends on the tie-breaking rule.
-/

namespace Factors

/-- Gender constants: the source docstrings state sex is either the string M
or the string F. -/
def MALE : String := "M"

/-- Gender constant for females. -/
def FEMALE : String := "F"

/-- Failure kinds of the source: KeyError on a dict/index lookup, the
sex-validation assert, the deferral assert of cf_annuity, attribute access on
None, and the unbound pv_factors variable of pv on an unknown insurance id. -/
inductive Err where
  | keyError : Err
  | invalidSex : Err
  | deferralExceedsTable : Err
  | noneType : Err
  | unknownInsuranceId : Err
deriving Repr, DecidableEq

instance {ε α : Type} [DecidableEq ε] [DecidableEq α] : DecidableEq (Except ε α) := fun x y =>
  match x, y with
  | .ok a, .ok b =>
    if h : a = b then .isTrue (by rw [h]) else .isFalse (fun hh => h (by cases hh; rfl))
  | .ok _, .error _ => .isFalse (fun hh => by cases hh)
  | .error _, .ok _ => .isFalse (fun hh => by cases hh)
  | .error e, .error f =>
    if h : e = f then .isTrue (by rw [h]) else .isFalse (fun hh => h (by cases hh; rfl))

/-- Lookup in a Python dict modelled as an association list; a missing key is
a KeyError. -/
def dictGet {α : Type} (d : List (String × α)) (k : String) : Except Err α :=
  match d.find? (fun p => p.1 == k) with
  | some p => .ok p.2
  | none => .error .keyError

/-- Element of a pandas Series at an integer label, `none` when the label is
outside the index (used where pandas produces NaN, e.g. by shift/fillna). -/
def sget? (s : List ℚ) (i : Int) : Option ℚ :=
  if h : 0 ≤ i ∧ i.toNat < s.length then some (s.get ⟨i.toNat, h.2⟩) else none

/-- Series element access `s.ix[i]`; a label outside the index raises
KeyError. -/
def seriesGet (s : List ℚ) (i : Int) : Except Err ℚ :=
  match sget? s i with
  | some v => .ok v
  | none => .error .keyError

/-- An interest assumption: a flat scalar rate or an explicit per-year
sequence (pandas Series).  Comparing a scalar with a Series in Python yields
an elementwise Series (useless as an `if` condition); the claims below only
exercise scalar rates, for which ℚ equality is the Python equality. -/
inductive Intrest where
  | flat : ℚ → Intrest
  | curve : List ℚ → Intrest
deriving Repr, DecidableEq

/-- Modelled from the spec: utils.x_to_series is not under src/; the spec
(section 4.4) describes it as building a yield-curve sequence of the same
length as the payment stream, a single flat rate broadcast to all years or an
explicit per-year sequence supplied by the caller. -/
def x_to_series : Intrest → ℕ → List ℚ
  | .flat r, n => List.replicate n r
  | .curve l, _ => l

/-- Per-sex, per-insurance-type adjustment row: three integer age offsets and
three multiplicative correction factors (source sheet tbl_adjustments). -/
structure Adjustment where
  CX1 : Int
  CX2 : Int
  CX3 : Int
  fnett : ℚ
  fcorr : ℚ
  fOTS : ℚ
deriving Repr, DecidableEq

/-- The immutable data of a LifeTable object after __init__: lx and hx series
per sex, the adjustment dicts per sex (keyed by insurance type), the optional
ukv exchange table (keyed by gender, pension age and interest), the tariff
parameters delta and round, and the constants of the missing settings module
(modelled from the spec as fields: LOWAGE, UPAGE, MAXAGE and the product
identifier list). -/
structure LifeTable where
  lxM : List ℚ
  lxF : List ℚ
  hxM : List ℚ
  hxF : List ℚ
  adjM : List (String × Adjustment)
  adjF : List (String × Adjustment)
  ukv : Option (List ((String × Int × ℚ) × ℚ))
  delta : Int
  round : Int
  LOWAGE : Int
  UPAGE : Int
  MAXAGE : Int
  INSURANCE_IDS : List String
deriving Repr, DecidableEq

/-- Access self.lx[sex]: the dict is built for exactly the keys MALE and
FEMALE, any other sex raises KeyError. -/
def lxDict (t : LifeTable) (sex : String) : Except Err (List ℚ) :=
  if sex = MALE then .ok t.lxM else if sex = FEMALE then .ok t.lxF else .error .keyError

/-- Access self.hx[sex], as lxDict. -/
def hxDict (t : LifeTable) (sex : String) : Except Err (List ℚ) :=
  if sex = MALE then .ok t.hxM else if sex = FEMALE then .ok t.hxF else .error .keyError

/-- Access self.adjust[sex]: per-sex dict of adjustment rows keyed by
insurance type. -/
def adjustDict (t : LifeTable) (sex : String) : Except Err (List (String × Adjustment)) :=
  if sex = MALE then .ok t.adjM else if sex = FEMALE then .ok t.adjF else .error .keyError

/-- LifeTable.npx: probability a person of the given age and sex is still
alive after nyears years; both ages are clamped to MAXAGE before the lx
lookups. -/
def npx (t : LifeTable) (age : Int) (sex : String) (nyears : Int) : Except Err ℚ := do
  let tbl ← lxDict t sex
  let future_age := min (age + nyears) t.MAXAGE
  let current_age := min age t.MAXAGE
  let n ← seriesGet tbl future_age
  let d ← seriesGet tbl current_age
  .ok (n / d)

/-- LifeTable.qx: one-year death probability. -/
def qx (t : LifeTable) (age : Int) (sex : String) : Except Err ℚ := do
  let p ← npx t age sex 1
  .ok (1 - p)

/-- LifeTable.nqx: probability of death in the interval from nyears-1 to
nyears. -/
def nqx (t : LifeTable) (age : Int) (sex : String) (nyears : Int) : Except Err ℚ := do
  let p1 ← npx t age sex (nyears - 1)
  let p2 ← npx t age sex nyears
  .ok (p1 - p2)

/-- LifeTable.cf_annuity: expected payments of a (deferred) lifetime annuity.
The payment pattern is `defer` zeros followed by ones, each entry scaled by
lx[age + yearOffset] / lx[age]; entries whose shifted lookup leaves the table
become NaN in pandas and are filled with 0.  The assert requires the table to
have more rows than the deferral period. -/
def cf_annuity (age : Int) (lx : List ℚ) (defer : Int) : Except Err (List ℚ) :=
  if (lx.length : Int) > defer then do
    let denom ← seriesGet lx age
    .ok ((List.range lx.length).map (fun i =>
      match sget? lx ((i : Int) + age) with
      | some v => (if (i : Int) ≥ defer then (1 : ℚ) else 0) * v / denom
      | none => 0))
  else .error .deferralExceedsTable

/-- Modelled from the spec: utils.prae_to_continuous is not under src/; the
spec (sections 4.2 and 4.3) describes it as converting a payment stream from
the due (prenumerando, start of period) convention to the ordinary
(postnumerando) convention by standard date-shifting, which moves each payment
one period earlier in the sequence. -/
def prae_to_continuous (s : List ℚ) : List ℚ :=
  (List.range s.length).map (fun i => ((s.get? (i + 1)).getD 0))

/-- Rounding to a configured number of decimals, round(x, p) of the source;
Python breaks exact ties to even, modelled here as half-up (no claim depends
on the tie rule). -/
def roundTo (p : Int) (x : ℚ) : ℚ :=
  ((round (x * (10 : ℚ) ^ p) : ℤ) : ℚ) / (10 : ℚ) ^ p

/-- A cash-flow record: the dict returned by the generators, with the keys
insurance_id, payments (indexed by year offset 0..n-1), and the optional age
and pension_age used by the mixed-timing discounting rule. -/
structure CFRec where
  insurance_id : Option String
  payments : List ℚ
  age : Option Int
  pension_age : Option Int
deriving Repr, DecidableEq

/-- LifeTable.pv: present value of a cash-flow record.  The yield curve is the
interest broadcast to the length of the payment stream; the discount exponent
is the year for OPLL / NPLL-B / ay_avg, the year plus one half for NPTL-B /
NPTL-O, and for NPLL-O / NPLLRS / NPLLRU the year plus one half exactly when
the year is at most pension_age - age.  `sqrtQ v` stands for the float
v ** 0.5, so a factor v ** (year + 0.5) is v ^ year * sqrtQ v.  The result is
the sum of payments times discount factors rounded to the tariff's configured
precision.  An unrecognized insurance_id prints an error and then crashes on
the unbound local pv_factors. -/
def pv (t : LifeTable) (sqrtQ : ℚ → ℚ) (cf : CFRec) (intrest : Intrest) : Except Err ℚ := do
  let cfs := cf.payments
  let iid ← (match cf.insurance_id with
    | some s => Except.ok s
    | none => Except.error Err.keyError)
  let yc := x_to_series intrest cfs.length
  let pvFactors ←
    if iid = "OPLL" ∨ iid = "NPLL-B" ∨ iid = "ay_avg" then
      Except.ok (List.zipWith (fun (i : ℕ) (r : ℚ) => (1 / (1 + r / 100)) ^ i)
        (List.range cfs.length) yc)
    else if iid = "NPTL-B" ∨ iid = "NPTL-O" then
      Except.ok (List.zipWith (fun (i : ℕ) (r : ℚ) =>
          (1 / (1 + r / 100)) ^ i * sqrtQ (1 / (1 + r / 100)))
        (List.range cfs.length) yc)
    else if iid = "NPLL-O" ∨ iid = "NPLLRS" ∨ iid = "NPLLRU" then do
      let pa ← (match cf.pension_age with
        | some v => Except.ok v
        | none => Except.error Err.keyError)
      let a ← (match cf.age with
        | some v => Except.ok v
        | none => Except.error Err.keyError)
      let ny := pa - a
      Except.ok (List.zipWith (fun (i : ℕ) (r : ℚ) =>
          if (i : Int) ≤ ny then (1 / (1 + r / 100)) ^ i * sqrtQ (1 / (1 + r / 100))
          else (1 / (1 + r / 100)) ^ i)
        (List.range cfs.length) yc)
    else Except.error Err.unknownInsuranceId
  let s := (List.zipWith (fun p f => p * f) cfs pvFactors).sum
  .ok (roundTo t.round s)

/-- The keyword arguments threaded through the generators: the interest
assumption, the exchange-variant selector hx_pd, the postnumerando flag of the
retirement pension, and the insurance_type of cf_ay_avg. -/
structure Kwargs where
  intrest : Option Intrest := none
  hx_pd : Option String := none
  postnumerando : Option Bool := none
  insurance_type : Option String := none
deriving Repr, DecidableEq

/-- LifeTable.cf_ay_avg: cash flows of the non-deferred annuity for the
(opposite-sex) beneficiary, the average of the two annuities at the adjacent
age-offset anchors, date-shifted by prae_to_continuous.  The pension_age
parameter is accepted and never used (its Python default is None), hence the
polymorphic type. -/
def cf_ay_avg {α : Type} (t : LifeTable) (age_insured : Int) (sex_insured : String)
    (pension_age : α) (kw : Kwargs) : Except Err CFRec :=
  let insurance_type := kw.insurance_type.getD "partner"
  if sex_insured = MALE ∨ sex_insured = FEMALE then do
    let sex_beneficiary := if sex_insured = MALE then FEMALE else MALE
    let delta := t.delta
    let sign : Int := if sex_insured = MALE then 1 else -1
    let aB ← adjustDict t sex_beneficiary
    let adjB ← dictGet aB insurance_type
    let gamma3 := adjB.CX3
    let tbl_beneficiary := if sex_insured = MALE then t.lxF else t.lxM
    let a1 ← cf_annuity (age_insured - sign * delta + gamma3) tbl_beneficiary 0
    let a2 ← cf_annuity (age_insured + 1 - sign * delta + gamma3) tbl_beneficiary 0
    let avg := List.zipWith (fun x y => (x + y) / 2) a1 a2
    .ok ⟨none, prae_to_continuous avg, none, none⟩
  else .error .invalidSex

/-- LifeTable.ay_avg: single premium of the beneficiary annuity.  The source
passes insurance_type positionally into cf_ay_avg, where it lands in the
unused pension_age parameter; cf_ay_avg therefore resolves its insurance_type
keyword to the default partner set. -/
def ay_avg (t : LifeTable) (sqrtQ : ℚ → ℚ) (age_insured : Int) (sex_insured : String)
    (intrest : Intrest) (insurance_type : String) : Except Err ℚ := do
  let c ← cf_ay_avg t age_insured sex_insured insurance_type {}
  pv t sqrtQ ⟨some "OPLL", c.payments, none, none⟩ intrest

/-- One row of the undefined-partner lookup table: singly-averaged annuity
value, averaged hazard rate, the CX1 offset, the combined partner scale
factor, and their product (the per-age cash-flow contribution). -/
structure LookupRow where
  ay_avg : ℚ
  hx_avg : ℚ
  alpha1 : Int
  factor : ℚ
  cf : ℚ
deriving Repr, DecidableEq

/-- The undefined-partner lookup table, indexed by (gender, age): the MALE
block for ages LOWAGE..UPAGE-1 followed by the FEMALE block. -/
abbrev Lookup := List ((String × Int) × LookupRow)

/-- The age range of the lookup table, range(LOWAGE, UPAGE). -/
def lookupAges (t : LifeTable) : List Int :=
  (List.range (t.UPAGE - t.LOWAGE).toNat).map (fun i => t.LOWAGE + i)

/-- One row of create_lookup_table at a given gender and age. -/
def lookupRowAt (t : LifeTable) (sqrtQ : ℚ → ℚ) (intrest : Intrest) (g : String)
    (a : Int) : Except Err LookupRow := do
  let ay ← ay_avg t sqrtQ a g intrest "partner"
  let h ← hxDict t g
  let h1 ← seriesGet h a
  let h2 ← seriesGet h (a + 1)
  let hx_avg := (h1 + h2) / 2
  let aS ← adjustDict t g
  let adj ← dictGet aS "partner"
  let factor := adj.fnett * adj.fcorr * adj.fOTS
  .ok ⟨ay, hx_avg, adj.CX1, factor, ay * hx_avg * factor⟩

/-- LifeTable.create_lookup_table: the dense (gender, age) table of
undefined-partner items for a given interest rate.  pandas fills the table
column by column; the row-wise construction here computes the same table and
fails exactly when some cell computation fails. -/
def create_lookup_table (t : LifeTable) (sqrtQ : ℚ → ℚ) (intrest : Intrest) :
    Except Err Lookup :=
  ([MALE, FEMALE].flatMap (fun g => (lookupAges t).map (fun a => (g, a)))).mapM
    (fun p => (lookupRowAt t sqrtQ intrest p.1 p.2).map (fun row => (p, row)))

/-- LifeTable.cf_retirement_pension: deferred annuity on the insured's own
table anchored at the CX2 offset, re-weighted by the survival-probability
ratio at the CX1 vs CX2 anchors over the deferral period, date-shifted, then
scaled by the retire adjustment factors.  The source has no sex assert here:
an invalid sex raises KeyError on the lx dict. -/
def cf_retirement_pension (t : LifeTable) (age_insured : Int) (sex_insured : String)
    (pension_age : Int) (kw : Kwargs) : Except Err CFRec := do
  let postnumerando := kw.postnumerando.getD false
  let tbl_insured ← lxDict t sex_insured
  let aS ← adjustDict t sex_insured
  let adj ← dictGet aS "retire"
  let cf0 ← cf_annuity (age_insured + adj.CX2) tbl_insured
    (pension_age - age_insured + (if postnumerando then 1 else 0))
  let p1 ← npx t (age_insured + adj.CX1) sex_insured (pension_age - age_insured)
  let p2 ← npx t (age_insured + adj.CX2) sex_insured (pension_age - age_insured)
  let cf1 := cf0.map (fun x => x * p1)
  let cf2 := cf1.map (fun x => x / p2)
  let cf3 := prae_to_continuous cf2
  .ok ⟨none, cf3.map (fun x => x * adj.fnett * adj.fcorr * adj.fOTS), none, none⟩

/-- LifeTable.cf_defined_partner: joint-life algebra, beneficiary annuity
minus the last-survivor product plus the retirement-period correction f1 - f2,
with f2 scaled by the two survivor-table ratios, all scaled by the partner
adjustment factors. -/
def cf_defined_partner (t : LifeTable) (age_insured : Int) (sex_insured : String)
    (pension_age : Int) : Except Err CFRec :=
  if sex_insured = MALE ∨ sex_insured = FEMALE then do
    let sex_beneficiary := if sex_insured = MALE then FEMALE else MALE
    let tbl_insured := if sex_insured = MALE then t.lxM else t.lxF
    let tbl_beneficiary := if sex_insured = MALE then t.lxF else t.lxM
    let delta := t.delta
    let aI ← adjustDict t sex_insured
    let adjI ← dictGet aI "partner"
    let aB ← adjustDict t sex_beneficiary
    let adjB ← dictGet aB "partner"
    let sign : Int := if sex_insured = MALE then 1 else -1
    let ay ← cf_annuity (age_insured - sign * delta + adjB.CX3) tbl_beneficiary 0
    let ax ← cf_annuity (age_insured + adjI.CX1) tbl_insured 0
    let axy := List.zipWith (fun a b => a * b) ax ay
    let f1a ← cf_annuity (age_insured + adjI.CX1) tbl_insured (pension_age - age_insured)
    let f1b ← cf_annuity (age_insured - sign * delta + adjB.CX3) tbl_beneficiary
      (pension_age - age_insured)
    let f1 := List.zipWith (fun a b => a * b) f1a f1b
    let f2a ← cf_annuity (age_insured + adjI.CX2) tbl_insured (pension_age - age_insured)
    let f2b ← cf_annuity (age_insured - sign * delta + adjB.CX3) tbl_beneficiary
      (pension_age - age_insured)
    let f2 := List.zipWith (fun a b => a * b) f2a f2b
    let n1 ← seriesGet tbl_insured (pension_age + adjI.CX1)
    let d1 ← seriesGet tbl_insured (age_insured + adjI.CX1)
    let n2 ← seriesGet tbl_insured (age_insured + adjI.CX2)
    let d2 ← seriesGet tbl_insured (pension_age + adjI.CX2)
    let f2s := f2.map (fun x => x * (n1 / d1) * (n2 / d2))
    let scale := adjI.fnett * adjI.fcorr * adjI.fOTS
    let out := List.zipWith (fun a b => scale * (a + b))
      (List.zipWith (fun a b => a - b) ay axy)
      (List.zipWith (fun a b => a - b) f1 f2s)
    .ok ⟨none, out, none, none⟩
  else .error .invalidSex

/-- LifeTable.cf_defined_one_year_risk: the averaged partner annuity stream
scaled by the one-year death probability at the CX1 anchor and by the partner
adjustment factors (the source deliberately reuses the partner set for risk
premiums).  The source reads self.adjust[sex] before its sex assert, so an
invalid sex raises KeyError, not the assert. -/
def cf_defined_one_year_risk (t : LifeTable) (age_insured : Int) (sex_insured : String)
    (pension_age : Int) (kw : Kwargs) : Except Err CFRec := do
  let aS ← adjustDict t sex_insured
  let adj ← dictGet aS "partner"
  if sex_insured = MALE ∨ sex_insured = FEMALE then do
    let c ← cf_ay_avg t age_insured sex_insured (none : Option Int)
      { insurance_type := some "partner" }
    let q ← qx t (age_insured + adj.CX1) sex_insured
    .ok ⟨some "NPTL-B",
      c.payments.map (fun x => x * q * adj.fnett * adj.fcorr * adj.fOTS), none, none⟩
  else .error .invalidSex

/-- LifeTable.cf_undefined_one_year_risk: the defined one-year risk stream
scaled by the insured's averaged hazard rate over the current and next age.
The hx dict is read first, so an invalid sex raises KeyError. -/
def cf_undefined_one_year_risk (t : LifeTable) (age_insured : Int) (sex_insured : String)
    (pension_age : Int) (kw : Kwargs) : Except Err CFRec := do
  let h ← hxDict t sex_insured
  let h1 ← seriesGet h age_insured
  let h2 ← seriesGet h (age_insured + 1)
  let hx_avg := (h1 + h2) / 2
  let c ← cf_defined_one_year_risk t age_insured sex_insured pension_age kw
  .ok ⟨some "NPTL-O", c.payments.map (fun x => hx_avg * x), none, none⟩

/-- One row of the cash-flow table built by calculate_cashflows: the product
identifier, sex and age of the cell and the generated cash-flow record (the
cf column). -/
structure CfsRow where
  insurance_id : String
  sex_insured : String
  age_insured : Int
  cf : CFRec
deriving Repr, DecidableEq

/-- One row of the factor matrix: the (insurance_id, sex, age) index and the
present value (the tar column). -/
structure FactorRow where
  insurance_id : String
  sex_insured : String
  age_insured : Int
  tar : ℚ
deriving Repr, DecidableEq

/-- The self.cfs DataFrame: either the raw cash-flow table written by
calculate_cashflows (with its cf column), or the same object after a
cache-hit calculate_factors call has re-indexed it in place and dropped the
cf column, leaving the factor matrix. -/
inductive CfsTable where
  | raw : List CfsRow → CfsTable
  | mutated : List FactorRow → CfsTable
deriving Repr, DecidableEq

/-- The mutable attributes of a LifeTable object that the claims touch: the
cached interest key and lookup table of the undefined-partner cache, and the
pension_age / cfs / factors slots of the factor pipeline.  All start as None
in __init__.  (self.yield_curve, written by pv and only read by the excluded
export layer, is not tracked.) -/
structure LTState where
  intrest : Option Intrest := none
  pension_age : Option Int := none
  lookup : Option Lookup := none
  cfs : Option CfsTable := none
  factors : Option (List FactorRow) := none
deriving Repr, DecidableEq

/-- Result of a stateful generator call: the collected print output, the
returned record or the raised error, the object state after the call
(mutations made before an error persist), and the number of
create_lookup_table invocations performed by the call (the instrumentation
used by the cache theorems; it does not influence the computation). -/
structure UPOut where
  prints : List String
  res : Except Err CFRec
  state : LTState
  rebuilds : ℕ
deriving Repr, DecidableEq

/-- The warning printed when cf_undefined_partner is called without an
interest assumption. -/
def defaultIntrestMsg : String :=
  "Undefined partner cashflows require intrest -- defaults intrest = 3pct"

/-- The warning printed when the ukv exchange lookup fails. -/
def ukvMsg : String :=
  "Undefined partner cashflows require UKV -- defaults hx_pd = 1"

/-- The guarded ukv lookup self.ukv.ix[(sex, pension_age, kwargs[intrest])]
inside the try of cf_undefined_partner: it produces a value only when the ukv
table is present, the raw intrest keyword was supplied as a scalar rate, and
the key is in the table; every failure mode (absent table, missing intrest
keyword, Series-typed rate, missing key) is caught by the bare except. -/
def ukv_lookup (t : LifeTable) (sex : String) (pension_age : Int)
    (rawIntrest : Option Intrest) : Option ℚ :=
  match t.ukv, rawIntrest with
  | some tbl, some (.flat r) =>
    (tbl.find? (fun p => p.1.1 == sex && p.1.2.1 == pension_age && p.1.2.2 == r)).map
      (fun p => p.2)
  | _, _ => none

/-- The hx_at_pensionage resolution of cf_undefined_partner: 1 for None or
one (exchangeable, the default), the guarded ukv lookup with fallback 1 and a
warning for ukv, and the insured's own hazard-table value at pension age for
any other selector. -/
def up_hx (t : LifeTable) (sex_insured : String) (pension_age : Int)
    (rawIntrest : Option Intrest) (hx_pd : Option String) :
    List String × Except Err ℚ :=
  match hx_pd with
  | none => ([], .ok 1)
  | some s =>
    if s = "one" then ([], .ok 1)
    else if s = "ukv" then
      match ukv_lookup t sex_insured pension_age rawIntrest with
      | some v => ([], .ok v)
      | none => ([ukvMsg], .ok 1)
    else ([], do
      let h ← hxDict t sex_insured
      seriesGet h pension_age)

/-- The partner adjustment row read (and otherwise unused) by
cf_undefined_partner for fnett, fcorr and fOTS. -/
def up_adj (t : LifeTable) (sex_insured : String) : Except Err Adjustment := do
  let aS ← adjustDict t sex_insured
  dictGet aS "partner"

/-- The single-slot cache step of cf_undefined_partner: when the requested
interest equals the cached key the cached table is taken (even when it is
None); otherwise the table is rebuilt and, if the rebuild succeeds, both slots
are overwritten (a failing rebuild raises before either assignment).  The ℕ
component counts create_lookup_table invocations. -/
def lookup_cache (t : LifeTable) (sqrtQ : ℚ → ℚ) (st : LTState) (intrest : Intrest) :
    Except Err (Option Lookup) × LTState × ℕ :=
  if some intrest = st.intrest then (.ok st.lookup, st, 0)
  else
    match create_lookup_table t sqrtQ intrest with
    | .error e => (.error e, st, 1)
    | .ok L => (.ok (some L), { st with lookup := some L, intrest := some intrest }, 1)

/-- The part of cf_undefined_partner after the hx resolution: the unused
partner-factor lookups, the cache step, the pre-retirement phase (lookup rows
from the insured's age to pension age minus one, weighted by the deferred
death probabilities anchored at each row's alpha1), and the post-retirement
phase (the defined partner pension at pension age scaled by the survival
probability to retirement and by hx_at_pensionage), concatenated and
re-indexed from year 0. -/
def up_rest (t : LifeTable) (sqrtQ : ℚ → ℚ) (st : LTState) (age_insured : Int)
    (sex_insured : String) (pension_age : Int) (intrest : Intrest)
    (hx_at_pensionage : ℚ) : UPOut :=
  match up_adj t sex_insured with
  | .error e => ⟨[], .error e, st, 0⟩
  | .ok _ =>
    match lookup_cache t sqrtQ st intrest with
    | (.error e, st1, n) => ⟨[], .error e, st1, n⟩
    | (.ok none, st1, n) => ⟨[], .error .noneType, st1, n⟩
    | (.ok (some lookup), st1, n) =>
      let slice := lookup.filter (fun p =>
        p.1.1 == sex_insured && decide (age_insured ≤ p.1.2) &&
          decide (p.1.2 ≤ pension_age - 1))
      match slice.mapM (fun p =>
          (nqx t (age_insured + p.2.alpha1) sex_insured (p.1.2 - age_insured + 1)).map
            (fun nq => p.2.cf * nq)) with
      | .error e => ⟨[], .error e, st1, n⟩
      | .ok cf_till_pension_age =>
        match lookup.find? (fun p => p.1.1 == sex_insured && p.1.2 == age_insured) with
        | none => ⟨[], .error .keyError, st1, n⟩
        | some prow =>
          match npx t (age_insured + prow.2.alpha1) sex_insured
              (pension_age - age_insured) with
          | .error e => ⟨[], .error e, st1, n⟩
          | .ok prob =>
            match cf_defined_partner t pension_age sex_insured pension_age with
            | .error e => ⟨[], .error e, st1, n⟩
            | .ok dp =>
              let cf_after := dp.payments.map (fun x => hx_at_pensionage * prob * x)
              ⟨[], .ok ⟨none, cf_till_pension_age ++ cf_after, some age_insured,
                some pension_age⟩, st1, n⟩

/-- The body of cf_undefined_partner after the sex assert and the interest
defaulting: `intrest` is the effective (possibly defaulted) rate used for the
cache, `rawIntrest` the raw intrest keyword used by the guarded ukv lookup. -/
def up_body (t : LifeTable) (sqrtQ : ℚ → ℚ) (st : LTState) (age_insured : Int)
    (sex_insured : String) (pension_age : Int) (intrest : Intrest)
    (rawIntrest : Option Intrest) (hx_pd : Option String) : UPOut :=
  match up_hx t sex_insured pension_age rawIntrest hx_pd with
  | (ps, .error e) => ⟨ps, .error e, st, 0⟩
  | (ps, .ok hx_at_pensionage) =>
    let o := up_rest t sqrtQ st age_insured sex_insured pension_age intrest
      hx_at_pensionage
    ⟨ps ++ o.prints, o.res, o.state, o.rebuilds⟩

/-- LifeTable.cf_undefined_partner: after the sex assert, a missing intrest
keyword prints a warning and substitutes the default flat 3 percent rate; the
body then resolves hx_at_pensionage, consults the single-slot lookup cache and
assembles the two-phase payment stream. -/
def cf_undefined_partner (t : LifeTable) (sqrtQ : ℚ → ℚ) (st : LTState)
    (age_insured : Int) (sex_insured : String) (pension_age : Int) (kw : Kwargs) :
    UPOut :=
  if sex_insured = MALE ∨ sex_insured = FEMALE then
    match kw.intrest with
    | none =>
      let o := up_body t sqrtQ st age_insured sex_insured pension_age (.flat 3) none
        kw.hx_pd
      ⟨defaultIntrestMsg :: o.prints, o.res, o.state, o.rebuilds⟩
    | some r => up_body t sqrtQ st age_insured sex_insured pension_age r (some r)
        kw.hx_pd
  else ⟨[], .error .invalidSex, st, 0⟩

/-- merge_two_dicts of the dispatcher: the record produced by the generator
updated with the dispatched insurance_id, the generator's own id (when
present) taking precedence. -/
def mergeId (iid : String) (r : CFRec) : CFRec :=
  { r with insurance_id := some (r.insurance_id.getD iid) }

/-- Lift a stateless generator result into the stateful call format. -/
def pureOut (st : LTState) (e : Except Err CFRec) : UPOut := ⟨[], e, st, 0⟩

/-- LifeTable.cf: the product dispatcher.  Each identifier maps to its
generator and a fixed hx_pd policy option (non-exchangable for NPLL-O, one
for NPLLRS, ukv for NPLLRU, None otherwise); an unknown identifier raises
KeyError on the switcher dict. -/
def cf (t : LifeTable) (sqrtQ : ℚ → ℚ) (st : LTState) (insurance_id : String)
    (age_insured : Int) (sex_insured : String) (pension_age : Int) (kw : Kwargs) :
    UPOut :=
  if insurance_id = "OPLL" then
    pureOut st ((cf_retirement_pension t age_insured sex_insured pension_age
      { kw with hx_pd := none }).map (mergeId insurance_id))
  else if insurance_id = "NPLL-B" then
    pureOut st ((cf_defined_partner t age_insured sex_insured pension_age).map
      (mergeId insurance_id))
  else if insurance_id = "NPLL-O" then
    let o := cf_undefined_partner t sqrtQ st age_insured sex_insured pension_age
      { kw with hx_pd := some "non-exchangable" }
    { o with res := o.res.map (mergeId insurance_id) }
  else if insurance_id = "NPLLRS" then
    let o := cf_undefined_partner t sqrtQ st age_insured sex_insured pension_age
      { kw with hx_pd := some "one" }
    { o with res := o.res.map (mergeId insurance_id) }
  else if insurance_id = "NPLLRU" then
    let o := cf_undefined_partner t sqrtQ st age_insured sex_insured pension_age
      { kw with hx_pd := some "ukv" }
    { o with res := o.res.map (mergeId insurance_id) }
  else if insurance_id = "NPTL-B" then
    pureOut st ((cf_defined_one_year_risk t age_insured sex_insured pension_age
      { kw with hx_pd := none }).map (mergeId insurance_id))
  else if insurance_id = "NPTL-O" then
    pureOut st ((cf_undefined_one_year_risk t age_insured sex_insured pension_age
      { kw with hx_pd := none }).map (mergeId insurance_id))
  else if insurance_id = "ay_avg" then
    pureOut st ((cf_ay_avg t age_insured sex_insured pension_age
      { kw with hx_pd := none }).map (mergeId insurance_id))
  else pureOut st (.error .keyError)

/-- Result of a factor-pipeline call: collected prints, the factor matrix or
the raised error, the object state after the call, and whether the cash-flow
generators were re-invoked (calculate_cashflows was called). -/
structure FacOut where
  prints : List String
  res : Except Err (List FactorRow)
  state : LTState
  recomputed : Bool
deriving Repr, DecidableEq

/-- Row-wise generation of the cash-flow table: each cell calls the
dispatcher with the shared pension age and interest, threading the object
state (the undefined-partner cache mutates along the way); the first raised
error aborts the apply with the mutations made so far. -/
def gen_rows (t : LifeTable) (sqrtQ : ℚ → ℚ) (st : LTState) (pension_age : Int)
    (intrest : Intrest) : List (String × String × Int) →
      List String × Except Err (List CfsRow) × LTState
  | [] => ([], .ok [], st)
  | (iid, sex, age) :: rest =>
    let o := cf t sqrtQ st iid age sex pension_age { intrest := some intrest }
    match o.res with
    | .error e => (o.prints, .error e, o.state)
    | .ok rec =>
      let (ps, r, st') := gen_rows t sqrtQ o.state pension_age intrest rest
      (o.prints ++ ps, r.map (fun rows => ⟨iid, sex, age, rec⟩ :: rows), st')

/-- The cross product of products, sexes and the supported age range, in the
row order of utils.cartesian (modelled from the spec, section 4.6: the full
cross-product of all product identifiers, both sexes and the age range). -/
def cartesianRows (t : LifeTable) : List (String × String × Int) :=
  t.INSURANCE_IDS.flatMap (fun iid =>
    [MALE, FEMALE].flatMap (fun sex =>
      (lookupAges t).map (fun a => (iid, sex, a))))

/-- LifeTable.calculate_cashflows: generates the full cash-flow table and, on
success, stores it in self.cfs and records the (intrest, pension_age) key. -/
def calculate_cashflows (t : LifeTable) (sqrtQ : ℚ → ℚ) (st : LTState)
    (pension_age : Int) (intrest : Intrest) :
    List String × Except Err (List CfsRow) × LTState :=
  let (ps, r, st') := gen_rows t sqrtQ st pension_age intrest (cartesianRows t)
  match r with
  | .error e => (ps, .error e, st')
  | .ok rows => (ps, .ok rows,
      { st' with intrest := some intrest
                 pension_age := some pension_age
                 cfs := some (.raw rows) })

/-- The tar computation of calculate_factors: one present value per row of
the cash-flow table, producing the indexed factor matrix (the set_index and
the dropped cf column of the source). -/
def applyTar (t : LifeTable) (sqrtQ : ℚ → ℚ) (intrest : Intrest)
    (rows : List CfsRow) : Except Err (List FactorRow) :=
  rows.mapM (fun row => (pv t sqrtQ row.cf intrest).map
    (fun v => ⟨row.insurance_id, row.sex_insured, row.age_insured, v⟩))

/-- LifeTable.calculate_factors: on a cache hit (both the interest and the
pension age equal the stored key) the factors variable aliases self.cfs, so
the in-place set_index and cf-column drop mutate the cached table; a table
already mutated by a previous hit makes the per-row cf access raise KeyError,
and a None table raises on attribute access.  On a miss the table is rebuilt
by calculate_cashflows and the factors are computed on a deep copy, leaving
self.cfs intact. -/
def calculate_factors (t : LifeTable) (sqrtQ : ℚ → ℚ) (st : LTState)
    (intrest : Intrest) (pension_age : Int) : FacOut :=
  if some intrest = st.intrest ∧ some pension_age = st.pension_age then
    match st.cfs with
    | none => ⟨[], .error .noneType, st, false⟩
    | some (.mutated _) => ⟨[], .error .keyError, st, false⟩
    | some (.raw rows) =>
      match applyTar t sqrtQ intrest rows with
      | .error e => ⟨[], .error e, st, false⟩
      | .ok F =>
        ⟨[], .ok F, { st with cfs := some (.mutated F), factors := some F }, false⟩
  else
    let (ps, r, st') := calculate_cashflows t sqrtQ st pension_age intrest
    match r with
    | .error e => ⟨ps, .error e, st', true⟩
    | .ok rows =>
      match applyTar t sqrtQ intrest rows with
      | .error e => ⟨ps, .error e, st', true⟩
      | .ok F => ⟨ps, .ok F, { st' with factors := some F }, true⟩

/-- A sequence of cf_undefined_partner calls with the given interest rates
(fixed age, sex, pension age and exchange selector), threading the object
state and summing the lookup-table rebuild counts. -/
def up_calls (t : LifeTable) (sqrtQ : ℚ → ℚ) (age_insured : Int)
    (sex_insured : String) (pension_age : Int) (hx_pd : Option String) :
    LTState → List Intrest → LTState × ℕ
  | st, [] => (st, 0)
  | st, r :: rest =>
    let o := cf_undefined_partner t sqrtQ st age_insured sex_insured pension_age
      { intrest := some r, hx_pd := hx_pd }
    let (st', m) := up_calls t sqrtQ age_insured sex_insured pension_age hx_pd
      o.state rest
    (st', o.rebuilds + m)

/-- The interest sequence of a call series that alternates between two rates
n times: n repetitions of the pair a, b. -/
def altSeq (a b : Intrest) : ℕ → List Intrest
  | 0 => []
  | n + 1 => a :: b :: altSeq a b n

/-! Concrete data used by witnesses: a small but fully populated life table. -/

/-- A neutral adjustment row: zero age offsets, unit correction factors. -/
def A0 : Adjustment := ⟨0, 0, 0, 1, 1, 1⟩

/-- A small concrete life table for witnesses: identical halving lx tables for
both sexes up to MAXAGE 5, zero hazard tables, neutral partner and retire
adjustments, a ukv table holding a single unrelated key, and a single-product
identifier list. -/
def tinyT : LifeTable where
  lxM := [16, 8, 4, 2, 1, 1]
  lxF := [16, 8, 4, 2, 1, 1]
  hxM := [0, 0, 0, 0, 0, 0]
  hxF := [0, 0, 0, 0, 0, 0]
  adjM := [("partner", A0), ("retire", A0)]
  adjF := [("partner", A0), ("retire", A0)]
  ukv := some [(("M", 9, 9), 1 / 2)]
  delta := 0
  round := 2
  LOWAGE := 0
  UPAGE := 3
  MAXAGE := 5
  INSURANCE_IDS := ["OPLL"]

/-- A concrete square-root stand-in for witnesses (its value is irrelevant to
every property proved below). -/
def sq0 : ℚ → ℚ := fun _ => 0

/-- Bind on a successful Except computation. -/
lemma exBind_ok {ε α β : Type} (a : α) (f : α → Except ε β) :
    (Except.ok a >>= f) = f a := rfl

/-- Bind on a failed Except computation propagates the error. -/
lemma exBind_error {ε α β : Type} (e : ε) (f : α → Except ε β) :
    ((Except.error e : Except ε α) >>= f) = .error e := rfl

/-- Element access on a series whose label is in range equals the defaulted
optional access. -/
lemma seriesGet_in_range (s : List ℚ) (i : Int) (h0 : 0 ≤ i) (hl : i.toNat < s.length) :
    seriesGet s i = .ok ((sget? s i).getD 0) := by
  unfold seriesGet sget?
  rw [dif_pos ⟨h0, hl⟩]
  rfl

/-- C1.  For every age, every sex in the table, and every n ≥ 0,
survivalProbability (npx) returns lx[min(age+n, M)] / lx[min(age, M)] from
that sex's life table, both lookup ages clamped to the maximum table age M
(flat extrapolation), provided the table covers ages 0..M. -/
theorem C1_npx_clamped_ratio (t : LifeTable) (sex : String) (age nyears : Int)
    (hsex : sex = MALE ∨ sex = FEMALE) (ha : 0 ≤ age) (hn : 0 ≤ nyears)
    (hM : 0 ≤ t.MAXAGE)
    (hlen : (if sex = MALE then t.lxM else t.lxF).length = t.MAXAGE.toNat + 1) :
    npx t age sex nyears =
      .ok (((sget? (if sex = MALE then t.lxM else t.lxF)
              (min (age + nyears) t.MAXAGE)).getD 0) /
           ((sget? (if sex = MALE then t.lxM else t.lxF)
              (min age t.MAXAGE)).getD 0)) := by
  have hidx : ∀ i : Int, 0 ≤ i →
      (min i t.MAXAGE).toNat < (if sex = MALE then t.lxM else t.lxF).length := by
    intro i hi
    rw [hlen]
    have h1 : (min i t.MAXAGE).toNat ≤ t.MAXAGE.toNat :=
      Int.toNat_le_toNat (min_le_right _ _)
    omega
  have h0f : 0 ≤ min (age + nyears) t.MAXAGE := le_min (by omega) hM
  have h0c : 0 ≤ min age t.MAXAGE := le_min ha hM
  have hdict : lxDict t sex = .ok (if sex = MALE then t.lxM else t.lxF) := by
    rcases hsex with h | h <;> simp [lxDict, h, MALE, FEMALE]
  unfold npx
  rw [hdict]
  show (do
    let n ← seriesGet _ (min (age + nyears) t.MAXAGE)
    let d ← seriesGet _ (min age t.MAXAGE)
    Except.ok (n / d) : Except Err ℚ) = _
  rw [seriesGet_in_range _ _ h0f (hidx _ (by omega)),
      seriesGet_in_range _ _ h0c (hidx _ ha)]
  rfl

/-- Witness for C1 at a concrete table and input with the clamp active. -/
theorem C1_witness :
    npx tinyT 1 MALE 10 =
      .ok (((sget? (if MALE = MALE then tinyT.lxM else tinyT.lxF)
              (min ((1 : Int) + 10) tinyT.MAXAGE)).getD 0) /
           ((sget? (if MALE = MALE then tinyT.lxM else tinyT.lxF)
              (min (1 : Int) tinyT.MAXAGE)).getD 0)) :=
  C1_npx_clamped_ratio tinyT MALE 1 10 (Or.inl rfl) (by decide) (by decide)
    (by decide) (by decide)

/-- Counterexample to C2 as stated: with an invalid sex, npx and
cf_retirement_pension raise a plain KeyError on the per-sex dict lookup, not
the InvalidSexError of the sex assert. -/
theorem C2_counterexample :
    npx tinyT 0 "X" 1 = .error .keyError ∧
    cf_retirement_pension tinyT 0 "X" 1 {} = .error .keyError ∧
    Err.keyError ≠ Err.invalidSex := by
  refine ⟨by decide, by decide, by decide⟩

/-- C2 amended.  With a sex outside {male, female}, the generators that begin
with the sex assert (cf_ay_avg, cf_defined_partner, cf_undefined_partner)
fail with InvalidSexError, while npx, cf_retirement_pension,
cf_defined_one_year_risk (which reads the adjustment dict before its assert)
and cf_undefined_one_year_risk fail with a KeyError on a per-sex dict lookup
instead; every operation fails, but not all with InvalidSexError. -/
theorem C2_amended_sex_validation {α : Type} (t : LifeTable) (sqrtQ : ℚ → ℚ)
    (st : LTState) (x : α) (sex : String) (age pa ny : Int) (kw : Kwargs)
    (h : ¬(sex = MALE ∨ sex = FEMALE)) :
    cf_ay_avg t age sex x kw = .error .invalidSex ∧
    cf_defined_partner t age sex pa = .error .invalidSex ∧
    cf_undefined_partner t sqrtQ st age sex pa kw = ⟨[], .error .invalidSex, st, 0⟩ ∧
    npx t age sex ny = .error .keyError ∧
    cf_retirement_pension t age sex pa kw = .error .keyError ∧
    cf_defined_one_year_risk t age sex pa kw = .error .keyError ∧
    cf_undefined_one_year_risk t age sex pa kw = .error .keyError := by
  push_neg at h
  obtain ⟨hm, hf⟩ := h
  have hor : ¬(sex = MALE ∨ sex = FEMALE) := by simp [hm, hf]
  refine ⟨?_, ?_, ?_, ?_, ?_, ?_, ?_⟩
  · simp [cf_ay_avg, hor]
  · simp [cf_defined_partner, hor]
  · simp [cf_undefined_partner, hor]
  · simp [npx, lxDict, hm, hf, exBind_error]
  · simp [cf_retirement_pension, lxDict, hm, hf, exBind_error, exBind_ok]
  · simp [cf_defined_one_year_risk, adjustDict, hm, hf, exBind_error]
  · simp [cf_undefined_one_year_risk, hxDict, hm, hf, exBind_error]

/-- Witness for the amended C2 at a concrete invalid sex. -/
theorem C2_amended_witness :
    cf_ay_avg tinyT 0 "X" (0 : Int) {} = .error .invalidSex ∧
    cf_defined_partner tinyT 0 "X" 1 = .error .invalidSex ∧
    cf_undefined_partner tinyT sq0 {} 0 "X" 1 {} = ⟨[], .error .invalidSex, {}, 0⟩ ∧
    npx tinyT 0 "X" 1 = .error .keyError ∧
    cf_retirement_pension tinyT 0 "X" 1 {} = .error .keyError ∧
    cf_defined_one_year_risk tinyT 0 "X" 1 {} = .error .keyError ∧
    cf_undefined_one_year_risk tinyT 0 "X" 1 {} = .error .keyError :=
  C2_amended_sex_validation tinyT sq0 {} (0 : Int) "X" 0 1 1 {} (by decide)

/-- C10.  ay_avg returns the same value for every insurance_type argument,
and always the value of the default partner set: the source passes
insurance_type positionally into the unused pension_age parameter of
cf_ay_avg, whose own insurance_type keyword then resolves to its default
value partner. -/
theorem C10_ay_avg_ignores_insurance_type (t : LifeTable) (sqrtQ : ℚ → ℚ)
    (age : Int) (sex : String) (intrest : Intrest) (it1 it2 : String) :
    ay_avg t sqrtQ age sex intrest it1 = ay_avg t sqrtQ age sex intrest it2 ∧
    ay_avg t sqrtQ age sex intrest it1 = ay_avg t sqrtQ age sex intrest "partner" :=
  ⟨rfl, rfl⟩

/-- Zipping a list with a constant list applies the binary function with that
constant. -/
lemma zipWith_replicate_const {α β : Type} (f : α → ℚ → β) (r : ℚ) (l : List α) :
    List.zipWith f l (List.replicate l.length r) = l.map (fun a => f a r) := by
  induction l with
  | nil => rfl
  | cons a l ih => simp [List.replicate_succ, ih]

/-- The sum of payments zipped with indexed factors equals the indexed sum of
payment-times-factor terms. -/
lemma sum_zipWith_mul_range (pays : List ℚ) (g : ℕ → ℚ) :
    (List.zipWith (fun p f => p * f) pays ((List.range pays.length).map g)).sum =
      ((List.range pays.length).map (fun i => pays.getD i 0 * g i)).sum := by
  induction pays generalizing g with
  | nil => rfl
  | cons p ps ih =>
    simp only [List.length_cons, List.range_succ_eq_map, List.map_cons, List.map_map,
      List.zipWith_cons_cons, List.sum_cons, List.getD_cons_zero, Function.comp_def,
      List.getD_cons_succ]
    rw [ih (fun i => g (i + 1))]

/-- The mixed-timing present value stated by the claim for the undefined
partner products: the payment at year offset i is discounted by the factor
v ^ i (with v the one-year discount factor 1/(1+r/100)) for years beyond the
retirement offset pension_age - age, and by the mid-year factor
v ^ i * sqrtQ v (standing for v ^ (i + 0.5)) for years up to and including
that offset; the sum of payments times discount factors is rounded to the
tariff's configured precision. -/
def pvSpecMixed (t : LifeTable) (sqrtQ : ℚ → ℚ) (pays : List ℚ) (age pension_age : Int)
    (r : ℚ) : ℚ :=
  let v : ℚ := 1 / (1 + r / 100)
  roundTo t.round (((List.range pays.length).map (fun i =>
    pays.getD i 0 *
      (if (i : Int) ≤ pension_age - age then v ^ i * sqrtQ v else v ^ i))).sum)

/-- C5.  For every record tagged NPLL-O, NPLLRS or NPLLRU carrying its age
and pension_age fields, pv discounts the payment at year offset i by
(1+r/100)^(-i) beyond the retirement offset and by (1+r/100)^(-(i+0.5)) up to
and including it, and returns the rounded sum of payments times discount
factors. -/
theorem C5_pv_mixed_timing (t : LifeTable) (sqrtQ : ℚ → ℚ) (rec : CFRec)
    (iid : String) (r : ℚ) (a pa : Int)
    (hid : rec.insurance_id = some iid)
    (hiid : iid = "NPLL-O" ∨ iid = "NPLLRS" ∨ iid = "NPLLRU")
    (ha : rec.age = some a) (hpa : rec.pension_age = some pa) :
    pv t sqrtQ rec (.flat r) = .ok (pvSpecMixed t sqrtQ rec.payments a pa r) := by
  have hlen : List.replicate rec.payments.length r =
      List.replicate (List.range rec.payments.length).length r := by
    rw [List.length_range]
  unfold pv
  rw [hid]
  rw [exBind_ok]
  rcases hiid with h | h | h <;>
    · subst h
      rw [if_neg (by decide), if_neg (by decide), if_pos (by decide)]
      rw [hpa, ha]
      simp only [exBind_ok, x_to_series, pvSpecMixed]
      rw [hlen, zipWith_replicate_const, sum_zipWith_mul_range]

/-- Witness for C5 at a concrete mixed-timing record. -/
theorem C5_witness :
    pv tinyT (fun _ => 1 / 2) ⟨some "NPLL-O", [1, 1, 1], some 0, some 1⟩ (.flat 300) =
      .ok (pvSpecMixed tinyT (fun _ => 1 / 2) [1, 1, 1] 0 1 300) :=
  C5_pv_mixed_timing tinyT (fun _ => 1 / 2) ⟨some "NPLL-O", [1, 1, 1], some 0, some 1⟩
    "NPLL-O" 300 0 1 rfl (Or.inl rfl) rfl rfl

/-- The state and rebuild count of up_rest are exactly those produced by its
cache step, whatever happens in the later stages. -/
lemma up_rest_state_rebuilds (t : LifeTable) (sqrtQ : ℚ → ℚ) (st : LTState)
    (age_insured : Int) (sex_insured : String) (pension_age : Int) (r : Intrest)
    (hx : ℚ) (A : Adjustment) (res : Except Err (Option Lookup)) (st1 : LTState) (n : ℕ)
    (hadj : up_adj t sex_insured = .ok A)
    (hcache : lookup_cache t sqrtQ st r = (res, st1, n)) :
    (up_rest t sqrtQ st age_insured sex_insured pension_age r hx).state = st1 ∧
    (up_rest t sqrtQ st age_insured sex_insured pension_age r hx).rebuilds = n := by
  unfold up_rest
  rw [hadj, hcache]
  rcases res with e | olook
  · exact ⟨rfl, rfl⟩
  · rcases olook with _ | L
    · exact ⟨rfl, rfl⟩
    · simp only []
      split <;> try exact ⟨rfl, rfl⟩
      split <;> try exact ⟨rfl, rfl⟩
      split <;> try exact ⟨rfl, rfl⟩
      split <;> exact ⟨rfl, rfl⟩

/-- Cache behavior of a single cf_undefined_partner call that reaches the
cache step (valid sex, explicit interest, successful hx resolution and
partner-adjustment lookups): the lookup table is rebuilt exactly when the
requested interest differs from the cached key; a hit leaves the state
untouched; a miss with a successful rebuild overwrites both cache slots. -/
lemma up_call_cache (t : LifeTable) (sqrtQ : ℚ → ℚ) (st : LTState) (age_insured : Int)
    (sex_insured : String) (pension_age : Int) (r : Intrest) (kw : Kwargs)
    (ps : List String) (hxv : ℚ) (A : Adjustment)
    (hsex : sex_insured = MALE ∨ sex_insured = FEMALE)
    (hint : kw.intrest = some r)
    (hhx : up_hx t sex_insured pension_age (some r) kw.hx_pd = (ps, .ok hxv))
    (hadj : up_adj t sex_insured = .ok A) :
    ((cf_undefined_partner t sqrtQ st age_insured sex_insured pension_age kw).rebuilds
        = if some r = st.intrest then 0 else 1) ∧
    (some r = st.intrest →
      (cf_undefined_partner t sqrtQ st age_insured sex_insured pension_age kw).state
        = st) ∧
    (∀ L, ¬ some r = st.intrest → create_lookup_table t sqrtQ r = .ok L →
      (cf_undefined_partner t sqrtQ st age_insured sex_insured pension_age kw).state
        = { st with lookup := some L, intrest := some r }) := by
  have hbody : cf_undefined_partner t sqrtQ st age_insured sex_insured pension_age kw
      = up_body t sqrtQ st age_insured sex_insured pension_age r (some r) kw.hx_pd := by
    unfold cf_undefined_partner
    rw [if_pos hsex, hint]
  have hproj : (up_body t sqrtQ st age_insured sex_insured pension_age r (some r)
        kw.hx_pd).state
      = (up_rest t sqrtQ st age_insured sex_insured pension_age r hxv).state ∧
      (up_body t sqrtQ st age_insured sex_insured pension_age r (some r)
        kw.hx_pd).rebuilds
      = (up_rest t sqrtQ st age_insured sex_insured pension_age r hxv).rebuilds := by
    unfold up_body
    rw [hhx]
    exact ⟨rfl, rfl⟩
  rw [hbody]
  by_cases hc : some r = st.intrest
  · have hcache : lookup_cache t sqrtQ st r = (.ok st.lookup, st, 0) := by
      unfold lookup_cache; rw [if_pos hc]
    have h := up_rest_state_rebuilds t sqrtQ st age_insured sex_insured pension_age r
      hxv A (.ok st.lookup) st 0 hadj hcache
    refine ⟨?_, fun _ => ?_, fun L hm _ => absurd hc hm⟩
    · rw [hproj.2, h.2, if_pos hc]
    · rw [hproj.1, h.1]
  · refine ⟨?_, fun h => absurd h hc, fun L hm hcr => ?_⟩
    · rcases hcr : create_lookup_table t sqrtQ r with e | L
      · have hcache : lookup_cache t sqrtQ st r = (.error e, st, 1) := by
          unfold lookup_cache; rw [if_neg hc, hcr]
        have h := up_rest_state_rebuilds t sqrtQ st age_insured sex_insured pension_age
          r hxv A (.error e) st 1 hadj hcache
        rw [hproj.2, h.2, if_neg hc]
      · have hcache : lookup_cache t sqrtQ st r =
            (.ok (some L), { st with lookup := some L, intrest := some r }, 1) := by
          unfold lookup_cache; rw [if_neg hc, hcr]
        have h := up_rest_state_rebuilds t sqrtQ st age_insured sex_insured pension_age
          r hxv A (.ok (some L)) _ 1 hadj hcache
        rw [hproj.2, h.2, if_neg hc]
    · have hcache : lookup_cache t sqrtQ st r =
          (.ok (some L), { st with lookup := some L, intrest := some r }, 1) := by
        unfold lookup_cache; rw [if_neg hc, hcr]
      have h := up_rest_state_rebuilds t sqrtQ st age_insured sex_insured pension_age
        r hxv A (.ok (some L)) _ 1 hadj hcache
      rw [hproj.1, h.1]

/-- C3.  For a cf_undefined_partner call that reaches the cache step, the
lookup table is recomputed exactly when the requested interest differs from
the cached key self.intrest; on a hit the cached table is reused and the
state is unchanged; and after any call whose rebuild (if one happens)
succeeds, the cached key equals the interest just used and the cached table
is the one just built. -/
theorem C3_single_slot_cache (t : LifeTable) (sqrtQ : ℚ → ℚ) (st : LTState)
    (age_insured : Int) (sex_insured : String) (pension_age : Int) (r : Intrest)
    (kw : Kwargs) (ps : List String) (hxv : ℚ) (A : Adjustment)
    (hsex : sex_insured = MALE ∨ sex_insured = FEMALE)
    (hint : kw.intrest = some r)
    (hhx : up_hx t sex_insured pension_age (some r) kw.hx_pd = (ps, .ok hxv))
    (hadj : up_adj t sex_insured = .ok A) :
    ((cf_undefined_partner t sqrtQ st age_insured sex_insured pension_age kw).rebuilds
        = if some r = st.intrest then 0 else 1) ∧
    ((cf_undefined_partner t sqrtQ st age_insured sex_insured pension_age kw).rebuilds
        = 0 ↔ some r = st.intrest) ∧
    (some r = st.intrest →
      (cf_undefined_partner t sqrtQ st age_insured sex_insured pension_age kw).state
        = st) ∧
    (∀ L, create_lookup_table t sqrtQ r = .ok L →
      (cf_undefined_partner t sqrtQ st age_insured sex_insured pension_age kw).state.intrest
        = some r) ∧
    (∀ L, ¬ some r = st.intrest → create_lookup_table t sqrtQ r = .ok L →
      (cf_undefined_partner t sqrtQ st age_insured sex_insured pension_age kw).state.lookup
        = some L) := by
  obtain ⟨h1, h2, h3⟩ := up_call_cache t sqrtQ st age_insured sex_insured pension_age r
    kw ps hxv A hsex hint hhx hadj
  refine ⟨h1, ?_, h2, ?_, ?_⟩
  · rw [h1]
    by_cases hc : some r = st.intrest
    · simp [hc]
    · simp [hc]
  · intro L hcr
    by_cases hc : some r = st.intrest
    · rw [h2 hc, ← hc]
    · rw [h3 L hc hcr]
  · intro L hm hcr
    rw [h3 L hm hcr]

/-- The keyword arguments of the concrete cache-witness calls. -/
def w3kw : Kwargs := { intrest := some (.flat 3) }

/-- The object state after one undefined-partner call on the fresh tiny
table at the flat 3 percent rate. -/
def w3st : LTState := (cf_undefined_partner tinyT sq0 {} 0 MALE 1 w3kw).state

/-- Witness for C3: on the fresh state the first call rebuilds once and
stores the 3 percent key; a second call at the same rate performs no rebuild
and leaves the state unchanged. -/
theorem C3_witness :
    (cf_undefined_partner tinyT sq0 {} 0 MALE 1 w3kw).rebuilds = 1 ∧
    (cf_undefined_partner tinyT sq0 w3st 0 MALE 1 w3kw).rebuilds = 0 ∧
    (cf_undefined_partner tinyT sq0 w3st 0 MALE 1 w3kw).state = w3st ∧
    (cf_undefined_partner tinyT sq0 {} 0 MALE 1 w3kw).state.intrest =
      some (.flat 3) := by
  have h1 := C3_single_slot_cache tinyT sq0 {} 0 MALE 1 (.flat 3) w3kw [] 1 A0
    (Or.inl rfl) rfl rfl (by with_unfolding_all decide)
  have h2 := C3_single_slot_cache tinyT sq0 w3st 0 MALE 1 (.flat 3) w3kw [] 1 A0
    (Or.inl rfl) rfl rfl (by with_unfolding_all decide)
  refine ⟨?_, ?_, ?_, ?_⟩
  · rw [h1.1, if_neg (by with_unfolding_all decide)]
  · rw [h2.1, if_pos (by with_unfolding_all decide)]
  · exact h2.2.2.1 (by with_unfolding_all decide)
  · exact h1.2.2.2.1 ((create_lookup_table tinyT sq0 (.flat 3)).toOption.getD [])
      (by with_unfolding_all decide)

/-- Counterexample to C4 as stated: a sequence of undefined-partner calls
alternating twice between two distinct rates performs four lookup-table
rebuilds (one per call), not the two rebuilds (one per distinct rate) the
claim asserts. -/
theorem C4_counterexample :
    (up_calls tinyT sq0 0 MALE 1 none {} (altSeq (.flat 0) (.flat 1) 2)).2 = 4 ∧
    (4 : ℕ) ≠ 2 :=
  ⟨by with_unfolding_all decide, by decide⟩

/-- C4 amended.  Across a sequence of cf_undefined_partner calls alternating
between two distinct rates n times (2n calls), the single-slot cache rebuilds
the lookup table on every call: 2n rebuilds in total, one per call rather than
one per distinct rate. -/
theorem C4_amended_rebuild_every_call (t : LifeTable) (sqrtQ : ℚ → ℚ)
    (age_insured : Int) (sex_insured : String) (pension_age : Int)
    (a b : Intrest) (A : Adjustment) (La Lb : Lookup)
    (hsex : sex_insured = MALE ∨ sex_insured = FEMALE)
    (hadj : up_adj t sex_insured = .ok A)
    (hca : create_lookup_table t sqrtQ a = .ok La)
    (hcb : create_lookup_table t sqrtQ b = .ok Lb)
    (hab : a ≠ b) :
    ∀ (n : ℕ) (st : LTState), st.intrest ≠ some a →
      (up_calls t sqrtQ age_insured sex_insured pension_age none st
        (altSeq a b n)).2 = 2 * n := by
  intro n
  induction n with
  | zero => intro st _; rfl
  | succ k ih =>
    intro st h0
    have h1 := up_call_cache t sqrtQ st age_insured sex_insured pension_age a
      { intrest := some a, hx_pd := none } [] 1 A hsex rfl rfl hadj
    have hm1 : ¬(some a = st.intrest) := fun h => h0 h.symm
    have hr1 : (cf_undefined_partner t sqrtQ st age_insured sex_insured pension_age
        { intrest := some a, hx_pd := none }).rebuilds = 1 := by
      rw [h1.1, if_neg hm1]
    have hs1 : (cf_undefined_partner t sqrtQ st age_insured sex_insured pension_age
        { intrest := some a, hx_pd := none }).state
        = { st with lookup := some La, intrest := some a } := h1.2.2 La hm1 hca
    set s1 := (cf_undefined_partner t sqrtQ st age_insured sex_insured pension_age
      { intrest := some a, hx_pd := none }).state with hs1def
    have h2 := up_call_cache t sqrtQ s1 age_insured sex_insured pension_age b
      { intrest := some b, hx_pd := none } [] 1 A hsex rfl rfl hadj
    have hm2 : ¬(some b = s1.intrest) := by
      rw [hs1]
      intro h
      exact hab (Option.some.inj h).symm
    have hr2 : (cf_undefined_partner t sqrtQ s1 age_insured sex_insured pension_age
        { intrest := some b, hx_pd := none }).rebuilds = 1 := by
      rw [h2.1, if_neg hm2]
    have hs2 : (cf_undefined_partner t sqrtQ s1 age_insured sex_insured pension_age
        { intrest := some b, hx_pd := none }).state
        = { s1 with lookup := some Lb, intrest := some b } := h2.2.2 Lb hm2 hcb
    set s2 := (cf_undefined_partner t sqrtQ s1 age_insured sex_insured pension_age
      { intrest := some b, hx_pd := none }).state with hs2def
    have hnext : s2.intrest ≠ some a := by
      rw [hs2]
      intro h
      exact hab (Option.some.inj h).symm
    have ihh := ih s2 hnext
    show (up_calls t sqrtQ age_insured sex_insured pension_age none st
      (a :: b :: altSeq a b k)).2 = 2 * (k + 1)
    rcases hres : up_calls t sqrtQ age_insured sex_insured pension_age none s2
      (altSeq a b k) with ⟨stf, m⟩
    have hm : m = 2 * k := by rw [← ihh, hres]
    simp only [up_calls, ← hs1def, ← hs2def, hres, hr1, hr2, hm]
    omega

/-- Witness for the amended C4 on the tiny table: two alternations of the
rates 0 and 1 from the fresh state give four rebuilds. -/
theorem C4_amended_witness :
    (up_calls tinyT sq0 0 MALE 1 none {} (altSeq (.flat 0) (.flat 1) 2)).2 = 2 * 2 :=
  C4_amended_rebuild_every_call tinyT sq0 0 MALE 1 (.flat 0) (.flat 1) A0
    ((create_lookup_table tinyT sq0 (.flat 0)).toOption.getD [])
    ((create_lookup_table tinyT sq0 (.flat 1)).toOption.getD [])
    (Or.inl rfl) (by decide) (by with_unfolding_all decide)
    (by with_unfolding_all decide) (by with_unfolding_all decide) 2 {} (by decide)

/-- Reduction of cf_undefined_partner on a valid sex and an explicit
interest keyword. -/
lemma cf_up_some (t : LifeTable) (sqrtQ : ℚ → ℚ) (st : LTState) (age_insured : Int)
    (sex_insured : String) (pension_age : Int) (r : Intrest) (hx_pd : Option String)
    (postn : Option Bool) (it : Option String)
    (hsex : sex_insured = MALE ∨ sex_insured = FEMALE) :
    cf_undefined_partner t sqrtQ st age_insured sex_insured pension_age
      ⟨some r, hx_pd, postn, it⟩
      = up_body t sqrtQ st age_insured sex_insured pension_age r (some r) hx_pd := by
  unfold cf_undefined_partner
  rw [if_pos hsex]

/-- Reduction of up_body on a successful hx resolution. -/
lemma up_body_eq (t : LifeTable) (sqrtQ : ℚ → ℚ) (st : LTState) (age_insured : Int)
    (sex_insured : String) (pension_age : Int) (r : Intrest) (raw : Option Intrest)
    (hx_pd : Option String) (ps : List String) (hxv : ℚ)
    (hhx : up_hx t sex_insured pension_age raw hx_pd = (ps, .ok hxv)) :
    up_body t sqrtQ st age_insured sex_insured pension_age r raw hx_pd =
      ⟨ps ++ (up_rest t sqrtQ st age_insured sex_insured pension_age r hxv).prints,
       (up_rest t sqrtQ st age_insured sex_insured pension_age r hxv).res,
       (up_rest t sqrtQ st age_insured sex_insured pension_age r hxv).state,
       (up_rest t sqrtQ st age_insured sex_insured pension_age r hxv).rebuilds⟩ := by
  unfold up_body
  rw [hhx]

/-- Reduction of calculate_cashflows on a successful row generation. -/
lemma calc_cf_ok (t : LifeTable) (sqrtQ : ℚ → ℚ) (st : LTState) (pension_age : Int)
    (intrest : Intrest) (ps : List String) (rows : List CfsRow) (st3 : LTState)
    (hg : gen_rows t sqrtQ st pension_age intrest (cartesianRows t)
      = (ps, .ok rows, st3)) :
    calculate_cashflows t sqrtQ st pension_age intrest = (ps, .ok rows,
      { st3 with intrest := some intrest
                 pension_age := some pension_age
                 cfs := some (.raw rows) }) := by
  unfold calculate_cashflows
  rw [hg]

/-- Reduction of calculate_factors on a cache miss with successful generation
and valuation. -/
lemma calc_f_miss (t : LifeTable) (sqrtQ : ℚ → ℚ) (st : LTState) (intrest : Intrest)
    (pension_age : Int) (ps : List String) (rows : List CfsRow) (st2 : LTState)
    (F : List FactorRow)
    (hmiss : ¬(some intrest = st.intrest ∧ some pension_age = st.pension_age))
    (hc : calculate_cashflows t sqrtQ st pension_age intrest = (ps, .ok rows, st2))
    (ha : applyTar t sqrtQ intrest rows = .ok F) :
    calculate_factors t sqrtQ st intrest pension_age
      = ⟨ps, .ok F, { st2 with factors := some F }, true⟩ := by
  unfold calculate_factors
  rw [if_neg hmiss, hc]
  simp only [ha]

/-- Reduction of calculate_factors on a cache hit over a raw cached table. -/
lemma calc_f_hit (t : LifeTable) (sqrtQ : ℚ → ℚ) (st : LTState) (intrest : Intrest)
    (pension_age : Int) (rows : List CfsRow) (F : List FactorRow)
    (hhit : some intrest = st.intrest ∧ some pension_age = st.pension_age)
    (hcfs : st.cfs = some (.raw rows))
    (ha : applyTar t sqrtQ intrest rows = .ok F) :
    calculate_factors t sqrtQ st intrest pension_age =
      ⟨[], .ok F, { st with cfs := some (.mutated F), factors := some F }, false⟩ := by
  unfold calculate_factors
  rw [if_pos hhit, hcfs]
  simp only [ha]

/-- Reduction of calculate_factors on a cache hit over an already mutated
cached table: the cf column is gone, the apply raises KeyError. -/
lemma calc_f_hit_mutated (t : LifeTable) (sqrtQ : ℚ → ℚ) (st : LTState)
    (intrest : Intrest) (pension_age : Int) (F : List FactorRow)
    (hhit : some intrest = st.intrest ∧ some pension_age = st.pension_age)
    (hcfs : st.cfs = some (.mutated F)) :
    calculate_factors t sqrtQ st intrest pension_age
      = ⟨[], .error .keyError, st, false⟩ := by
  unfold calculate_factors
  rw [if_pos hhit, hcfs]

/-- C6.  A cf_undefined_partner call without an interest argument prints the
documented default-substitution warning, substitutes the default flat 3
percent rate, and — whenever the body succeeds at that rate — proceeds to
return the cash-flow record rather than failing. -/
theorem C6_default_intrest (t : LifeTable) (sqrtQ : ℚ → ℚ) (st : LTState)
    (age_insured : Int) (sex_insured : String) (pension_age : Int)
    (hx_pd : Option String) (ps : List String) (rec : CFRec) (st1 : LTState) (n : ℕ)
    (hsex : sex_insured = MALE ∨ sex_insured = FEMALE)
    (hb : up_body t sqrtQ st age_insured sex_insured pension_age (.flat 3) none hx_pd
      = ⟨ps, .ok rec, st1, n⟩) :
    cf_undefined_partner t sqrtQ st age_insured sex_insured pension_age
      { intrest := none, hx_pd := hx_pd } = ⟨defaultIntrestMsg :: ps, .ok rec, st1, n⟩ := by
  unfold cf_undefined_partner
  rw [if_pos hsex]
  simp only [hb]

/-- The result of the undefined-partner body on the fresh tiny table at the
flat 3 percent rate. -/
def w6 : UPOut := up_body tinyT sq0 {} 0 MALE 1 (.flat 3) none none

/-- The cash-flow record produced by that body call. -/
def w6rec : CFRec := ⟨none, [0, 0, 1 / 8, 3 / 32, 7 / 128, 7 / 128, 0], some 0, some 1⟩

/-- Witness for C6: the tiny-table call without an interest keyword warns,
defaults to 3 percent and returns the record. -/
theorem C6_witness :
    cf_undefined_partner tinyT sq0 {} 0 MALE 1 { intrest := none, hx_pd := none } =
      ⟨defaultIntrestMsg :: w6.prints, .ok w6rec, w6.state, w6.rebuilds⟩ :=
  C6_default_intrest tinyT sq0 {} 0 MALE 1 none w6.prints w6rec w6.state w6.rebuilds
    (Or.inl rfl) (by with_unfolding_all decide)

/-- C7.  For the legacy exchange variant (hx_pd = ukv), whenever the guarded
exchange-table lookup fails (absent table, missing key, or a rate of the
wrong shape), the call prints a warning, falls back to exchange factor 1 and
otherwise behaves exactly like the exchangeable variant (hx_pd = one, whose
factor is 1); in particular it still produces its cash-flow record. -/
theorem C7_ukv_fallback (t : LifeTable) (sqrtQ : ℚ → ℚ) (st : LTState)
    (age_insured : Int) (sex_insured : String) (pension_age : Int) (r : Intrest)
    (ps : List String) (rec : CFRec) (st1 : LTState) (n : ℕ)
    (hsex : sex_insured = MALE ∨ sex_insured = FEMALE)
    (hfail : ukv_lookup t sex_insured pension_age (some r) = none)
    (hone : cf_undefined_partner t sqrtQ st age_insured sex_insured pension_age
      { intrest := some r, hx_pd := some "one" } = ⟨ps, .ok rec, st1, n⟩) :
    cf_undefined_partner t sqrtQ st age_insured sex_insured pension_age
      { intrest := some r, hx_pd := some "ukv" } = ⟨ukvMsg :: ps, .ok rec, st1, n⟩ := by
  have hhx1 : up_hx t sex_insured pension_age (some r) (some "one") = ([], .ok 1) := by
    simp [up_hx]
  have hhx2 : up_hx t sex_insured pension_age (some r) (some "ukv") =
      ([ukvMsg], .ok 1) := by
    simp [up_hx, hfail]
  rw [cf_up_some t sqrtQ st age_insured sex_insured pension_age r (some "one") none
    none hsex, up_body_eq t sqrtQ st age_insured sex_insured pension_age r (some r)
    (some "one") [] 1 hhx1] at hone
  rw [cf_up_some t sqrtQ st age_insured sex_insured pension_age r (some "ukv") none
    none hsex, up_body_eq t sqrtQ st age_insured sex_insured pension_age r (some r)
    (some "ukv") [ukvMsg] 1 hhx2]
  simp only [List.nil_append] at hone
  simp only [UPOut.mk.injEq] at hone ⊢
  obtain ⟨hp, hr, hs, hn⟩ := hone
  exact ⟨by simp [hp], hr, hs, hn⟩

/-- Witness for C7: on the tiny table the ukv key (M, 1, 3) is absent, so the
legacy-variant call warns and returns the exchangeable-variant record. -/
theorem C7_witness :
    cf_undefined_partner tinyT sq0 {} 0 MALE 1
      { intrest := some (.flat 3), hx_pd := some "ukv" } =
      ⟨ukvMsg :: w6.prints, .ok w6rec, w6.state, w6.rebuilds⟩ :=
  C7_ukv_fallback tinyT sq0 {} 0 MALE 1 (.flat 3) w6.prints w6rec w6.state w6.rebuilds
    (Or.inl rfl) (by decide) (by with_unfolding_all decide)

/-- C8.  After a successful calculate_factors call from a cache miss, a
second call with the identical (interest, pension_age) key succeeds with an
equal factor matrix and does not re-invoke the cash-flow generators (the
cached self.cfs is reused; recomputed is false). -/
theorem C8_factor_cache_second_call (t : LifeTable) (sqrtQ : ℚ → ℚ) (st : LTState)
    (intrest : Intrest) (pension_age : Int) (ps : List String) (F : List FactorRow)
    (st1 : LTState)
    (hmiss : ¬(some intrest = st.intrest ∧ some pension_age = st.pension_age))
    (h1 : calculate_factors t sqrtQ st intrest pension_age = ⟨ps, .ok F, st1, true⟩) :
    calculate_factors t sqrtQ st1 intrest pension_age =
      ⟨[], .ok F, { st1 with cfs := some (.mutated F), factors := some F }, false⟩ := by
  rcases hg : gen_rows t sqrtQ st pension_age intrest (cartesianRows t)
    with ⟨ps3, r3, st3⟩
  rcases r3 with e3 | rows3
  · have heq : calculate_factors t sqrtQ st intrest pension_age
        = ⟨ps3, .error e3, st3, true⟩ := by
      unfold calculate_factors calculate_cashflows
      rw [if_neg hmiss, hg]
    rw [heq] at h1
    simp at h1
  · have hc := calc_cf_ok t sqrtQ st pension_age intrest ps3 rows3 st3 hg
    rcases ha : applyTar t sqrtQ intrest rows3 with e | F2
    · have heq : calculate_factors t sqrtQ st intrest pension_age
          = ⟨ps3, .error e,
              { st3 with intrest := some intrest
                         pension_age := some pension_age
                         cfs := some (.raw rows3) }, true⟩ := by
        unfold calculate_factors
        rw [if_neg hmiss, hc]
        simp only [ha]
      rw [heq] at h1
      simp at h1
    · have heq := calc_f_miss t sqrtQ st intrest pension_age ps3 rows3 _ F2 hmiss hc ha
      rw [heq] at h1
      simp only [FacOut.mk.injEq] at h1
      obtain ⟨hps, hF, hst, -⟩ := h1
      have hFF : F2 = F := Except.ok.inj hF
      rw [← hst, ← hFF]
      exact calc_f_hit t sqrtQ _ intrest pension_age rows3 F2 ⟨rfl, rfl⟩ rfl ha

/-- The first factor-pipeline call on the fresh tiny table. -/
def w8 : FacOut := calculate_factors tinyT sq0 {} (.flat 3) 1

/-- Its factor matrix. -/
def w8F : List FactorRow := w8.res.toOption.getD []

/-- Witness for C8: the second identical call on the tiny table reproduces
the matrix without regenerating cash flows. -/
theorem C8_witness :
    calculate_factors tinyT sq0 w8.state (.flat 3) 1 =
      ⟨[], .ok w8F, { w8.state with cfs := some (.mutated w8F), factors := some w8F },
        false⟩ :=
  C8_factor_cache_second_call tinyT sq0 {} (.flat 3) 1 w8.prints w8F w8.state
    (by decide) (by with_unfolding_all decide)

/-- The rows cached by the first tiny-table pipeline call. -/
def w8rows : List CfsRow :=
  match w8.state.cfs with
  | some (.raw r) => r
  | _ => []

/-- C9.  A cache-hit calculate_factors call aliases the cached self.cfs and
mutates it in place: afterwards the cached table has lost its cf column
(it is the mutated factor matrix), and a further call with the same key can
no longer compute present values from the cache — it fails with the KeyError
raised on the missing cf column. -/
theorem C9_cache_hit_mutates_cfs (t : LifeTable) (sqrtQ : ℚ → ℚ) (st : LTState)
    (intrest : Intrest) (pension_age : Int) (rows : List CfsRow) (ps : List String)
    (F : List FactorRow) (st1 : LTState)
    (hhit : some intrest = st.intrest ∧ some pension_age = st.pension_age)
    (hcfs : st.cfs = some (.raw rows))
    (h : calculate_factors t sqrtQ st intrest pension_age = ⟨ps, .ok F, st1, false⟩) :
    st1.cfs = some (.mutated F) ∧
    (calculate_factors t sqrtQ st1 intrest pension_age).res = .error .keyError := by
  rcases ha : applyTar t sqrtQ intrest rows with e | F2
  · have heq : calculate_factors t sqrtQ st intrest pension_age
        = ⟨[], .error e, st, false⟩ := by
      unfold calculate_factors
      rw [if_pos hhit, hcfs]
      simp only [ha]
    rw [heq] at h
    simp at h
  · have heq := calc_f_hit t sqrtQ st intrest pension_age rows F2 hhit hcfs ha
    rw [heq] at h
    simp only [FacOut.mk.injEq] at h
    obtain ⟨-, hF, hst, -⟩ := h
    have hFF : F2 = F := Except.ok.inj hF
    rw [← hst, ← hFF]
    refine ⟨rfl, ?_⟩
    rw [calc_f_hit_mutated t sqrtQ
      { st with cfs := some (.mutated F2), factors := some F2 } intrest pension_age F2
      ⟨hhit.1, hhit.2⟩ rfl]

/-- Witness for C9: on the tiny table, the cache-hit call leaves self.cfs
without its cf column and the third call fails with KeyError. -/
theorem C9_witness :
    ({ w8.state with cfs := some (.mutated w8F), factors := some w8F } : LTState).cfs
      = some (.mutated w8F) ∧
    (calculate_factors tinyT sq0
      { w8.state with cfs := some (.mutated w8F), factors := some w8F }
      (.flat 3) 1).res = .error .keyError :=
  C9_cache_hit_mutates_cfs tinyT sq0 w8.state (.flat 3) 1 w8rows [] w8F
    { w8.state with cfs := some (.mutated w8F), factors := some w8F }
    (by with_unfolding_all decide) (by with_unfolding_all decide)
    (by with_unfolding_all decide)

end Factors
